import Mathlib

/-
Verification development for the browser-side call subsystem of a chat
client.  The definitions below are a shallow embedding of the source files:
the WebRTC service (webrtc.ts), the call store (callStore.ts), the socket
provider (SocketProvider.tsx) and the call screen (VideoCallScreen).
Tracks live in an id-indexed heap so that aliasing of MediaStreamTrack
objects between streams, senders and the originalVideoTrack field is
modelled faithfully.  Asynchronous methods are embedded as state
transformers over the service state; where an interleaving matters (a late
continuation after an await) the continuation is embedded as its own
transformer.
-/

namespace Spec2Proof

/-- Kind of a media track, matching MediaStreamTrack.kind. -/
inductive TrackKind where
  | audio
  | video
deriving DecidableEq, Repr

/-- One MediaStreamTrack object: identity, enabled flag and stopped flag. -/
structure Track where
  id : Nat
  kind : TrackKind
  enabled : Bool
  stopped : Bool
deriving DecidableEq, Repr

/-- A MediaStream is an ordered collection of references to tracks. -/
structure MediaStream where
  trackIds : List Nat
deriving DecidableEq, Repr

/-- The heap of live track objects; streams and senders refer to tracks by id. -/
abbrev TrackHeap := List Track

/-- Dereference a track id, as reading a MediaStreamTrack reference. -/
def lookupTrack (h : TrackHeap) (i : Nat) : Option Track :=
  h.find? (fun t => t.id == i)

/-- Write the enabled flag of the track with the given id. -/
def setTrackEnabled (h : TrackHeap) (i : Nat) (b : Bool) : TrackHeap :=
  h.map (fun t => if t.id = i then { t with enabled := b } else t)

/-- Stop every track whose id belongs to the given stream track list,
as in stream.getTracks().forEach(track => track.stop()). -/
def stopTracks (h : TrackHeap) (ids : List Nat) : TrackHeap :=
  h.map (fun t => if t.id ∈ ids then { t with stopped := true } else t)

/-- Set the enabled flag of every track of the stream with the given kind,
as in stream.getVideoTracks().forEach(track => track.enabled = b). -/
def setStreamKindEnabled (h : TrackHeap) (st : MediaStream) (k : TrackKind)
    (b : Bool) : TrackHeap :=
  h.map (fun t =>
    if t.id ∈ st.trackIds ∧ t.kind = k then { t with enabled := b } else t)

/-- The first track of the given kind in the stream, as getAudioTracks()[0]
or getVideoTracks()[0]. -/
def firstKindTrack (h : TrackHeap) (st : MediaStream) (k : TrackKind) : Option Track :=
  (st.trackIds.filterMap (lookupTrack h)).find? (fun t => t.kind == k)

/-- The id of the first video track of the stream, when one exists. -/
def firstVideoId (h : TrackHeap) (st : MediaStream) : Option Nat :=
  (firstKindTrack h st TrackKind.video).map Track.id

/-- The track with this id, if present, is stopped in the heap. -/
def trackStopped (h : TrackHeap) (i : Nat) : Prop :=
  ∀ t, lookupTrack h i = some t → t.stopped = true

/-- A call is audio-only or audio plus video. -/
inductive CallType where
  | audio
  | video
deriving DecidableEq, Repr

/-- Outbound socket emissions issued by the call subsystem. -/
inductive OutEvent where
  | callUser (userToCall : String) (callId : String)
  | answerCall (toUser : String) (callId : String)
  | iceCandidate (toUser : String)
  | userBusy (toUser : String) (callId : Option String)
deriving DecidableEq, Repr

section HeapLemmas

/-- Track lookup commutes with an id-preserving map over the heap. -/
theorem lookupTrack_map (h : TrackHeap) (g : Track → Track)
    (hg : ∀ t, (g t).id = t.id) (i : Nat) :
    lookupTrack (h.map g) i = (lookupTrack h i).map g := by
  induction h with
  | nil => rfl
  | cons t ts ih =>
    simp only [lookupTrack, List.map_cons, List.find?]
    by_cases hb : t.id = i
    · have : (g t).id = i := by rw [hg]; exact hb
      simp [hb, this]
    · have h1 : (t.id == i) = false := by simp [hb]
      have h2 : ((g t).id == i) = false := by simp [hg, hb]
      simp only [h1, h2]
      exact ih

/-- A successful track lookup returns a track carrying the requested id. -/
theorem lookupTrack_id (h : TrackHeap) (i : Nat) (t : Track)
    (ht : lookupTrack h i = some t) : t.id = i := by
  have := List.find?_some ht
  simpa using this

/-- Stopping a list of stream tracks stops every track whose id is in the list. -/
theorem trackStopped_stopTracks_of_mem (h : TrackHeap) (ids : List Nat) (i : Nat)
    (hi : i ∈ ids) : trackStopped (stopTracks h ids) i := by
  intro t ht
  have hmap := lookupTrack_map h
    (fun t => if t.id ∈ ids then { t with stopped := true } else t)
    (by intro t; dsimp only; split <;> rfl) i
  rw [stopTracks] at ht
  rw [hmap] at ht
  obtain ⟨u, hu, hgu⟩ := Option.map_eq_some'.mp ht
  have hid : u.id = i := lookupTrack_id h i u hu
  have hc : u.id ∈ ids := by rw [hid]; exact hi
  rw [if_pos hc] at hgu
  rw [← hgu]

/-- Stopping further tracks preserves already-stopped tracks. -/
theorem trackStopped_stopTracks_mono (h : TrackHeap) (ids : List Nat) (i : Nat)
    (hs : trackStopped h i) : trackStopped (stopTracks h ids) i := by
  intro t ht
  have hmap := lookupTrack_map h
    (fun t => if t.id ∈ ids then { t with stopped := true } else t)
    (by intro t; dsimp only; split <;> rfl) i
  rw [stopTracks] at ht
  rw [hmap] at ht
  obtain ⟨u, hu, hgu⟩ := Option.map_eq_some'.mp ht
  have hstop : u.stopped = true := hs u hu
  by_cases hc : u.id ∈ ids
  · rw [if_pos hc] at hgu; rw [← hgu]
  · rw [if_neg hc] at hgu; rw [← hgu]; exact hstop

end HeapLemmas

/-! Media acquisition support check, from checkWebRTCSupport in webrtc.ts. -/

/-- The capabilities of the execution context that checkWebRTCSupport reads. -/
structure BrowserEnv where
  inBrowser : Bool
  isSecureContext : Bool
  hostname : String
  hasMediaDevices : Bool
  hasGetUserMedia : Bool
  hasRTCPeerConnection : Bool
deriving DecidableEq, Repr

/-- Result record of checkWebRTCSupport. -/
structure SupportResult where
  supported : Bool
  error : Option String
deriving DecidableEq, Repr

/-- Embedding of checkWebRTCSupport, webrtc.ts lines 29 to 64. -/
def checkWebRTCSupport (env : BrowserEnv) : SupportResult :=
  if env.inBrowser = false then
    { supported := false, error := some "Not in browser environment" }
  else if env.isSecureContext = false
      ∧ env.hostname ≠ "localhost" ∧ env.hostname ≠ "127.0.0.1" then
    { supported := false
      error := some "WebRTC requires HTTPS. Please access via localhost:3004 or use HTTPS." }
  else if env.hasMediaDevices = false ∨ env.hasGetUserMedia = false then
    { supported := false
      error := some "Your browser does not support WebRTC. Please use a modern browser like Chrome, Firefox, or Edge." }
  else if env.hasRTCPeerConnection = false then
    { supported := false, error := some "WebRTC is not fully supported in your browser." }
  else
    { supported := true, error := none }

/-- A call into the platform capture layer. -/
inductive PlatformCall where
  | getUserMediaCall (withVideo : Bool)
  | getDisplayMediaCall
deriving DecidableEq, Repr

/-- Embedding of the guard phase of WebRTCService.initializeMedia, webrtc.ts
lines 84 to 113: the support check runs first and, on failure, the method
throws before any capture request; otherwise exactly one getUserMedia request
is issued (the capture result itself is handled by the continuation of the
calling operation).  The second component records the platform calls made. -/
def initializeMediaAttempt (env : BrowserEnv) (t : CallType) :
    Except String Unit × List PlatformCall :=
  let support := checkWebRTCSupport env
  if support.supported = false then
    (Except.error (support.error.getD "WebRTC not supported"), [])
  else
    (Except.ok (), [PlatformCall.getUserMediaCall (t = CallType.video)])

/-! Peer-connection model and the WebRTCService state, from webrtc.ts. -/

/-- An RTCRtpSender: a slot in the peer connection holding a track reference. -/
structure Sender where
  senderTrackId : Option Nat
deriving DecidableEq, Repr

/-- An RTCPeerConnection, reduced to the parts the service reads: the sender
list and whether a remote description has been set. -/
structure PeerConnection where
  senders : List Sender
  remoteDescription : Option String
deriving DecidableEq, Repr

/-- Whether a sender currently carries a video track, as the predicate of
getSenders().find(s => s.track?.kind === video). -/
def isVideoSender (h : TrackHeap) (sd : Sender) : Bool :=
  match sd.senderTrackId with
  | some i =>
    match lookupTrack h i with
    | some t => t.kind == TrackKind.video
    | none => false
  | none => false

/-- Swap the track of the first sender carrying a video track, as
sender.replaceTrack(newTrack) on the sender found; unchanged when no video
sender exists. -/
def replaceFirstVideoSender (h : TrackHeap) (newId : Nat) : List Sender → List Sender
  | [] => []
  | sd :: rest =>
    if isVideoSender h sd then { senderTrackId := some newId } :: rest
    else sd :: replaceFirstVideoSender h newId rest

/-- Replace the track of the video sender of the connection without
renegotiation; a no-op when no video sender exists. -/
def replaceVideoSenderTrack (h : TrackHeap) (pc : PeerConnection) (newId : Nat) :
    PeerConnection :=
  { pc with senders := replaceFirstVideoSender h newId pc.senders }

/-- The mutable fields of the WebRTCService singleton, webrtc.ts lines 66 to 78,
together with the track heap and two observation logs: appliedCandidates
records calls of the underlying addIceCandidate, sentSignals records socket
emissions, offersCreated counts createOffer and createAnswer negotiations. -/
structure ServiceState where
  heap : TrackHeap
  nextId : Nat
  peerConnection : Option PeerConnection
  localStream : Option MediaStream
  remoteStream : Option MediaStream
  screenStream : Option MediaStream
  pendingIceCandidates : List String
  isInitiator : Bool
  remoteUserId : String
  callId : String
  callType : CallType
  isScreenSharing : Bool
  originalVideoTrack : Option Nat
  appliedCandidates : List String
  sentSignals : List OutEvent
  offersCreated : Nat
deriving DecidableEq, Repr

namespace WebRTCService

/-- Embedding of WebRTCService.addIceCandidate, webrtc.ts lines 324 to 337:
with no peer connection or no remote description the candidate is queued,
otherwise it is applied to the underlying connection (failures of the
underlying call are logged and swallowed by the source, so application
is recorded unconditionally). -/
def addIceCandidate (s : ServiceState) (c : String) : ServiceState :=
  match s.peerConnection with
  | none => { s with pendingIceCandidates := s.pendingIceCandidates ++ [c] }
  | some pc =>
    match pc.remoteDescription with
    | none => { s with pendingIceCandidates := s.pendingIceCandidates ++ [c] }
    | some _ => { s with appliedCandidates := s.appliedCandidates ++ [c] }

/-- Embedding of the pending-candidate loop of createPeerConnection, webrtc.ts
lines 213 to 215: for (const candidate of this.pendingIceCandidates) await
this.addIceCandidate(candidate).  A javascript for-of loop reads the live
array, so an addIceCandidate call that re-queues the candidate extends the
array being iterated; the loop is therefore embedded with an explicit index
against the current state and a fuel bound, returning none when the fuel is
exhausted before the index reaches the length. -/
def drainPendingLoop : Nat → Nat → ServiceState → Option ServiceState
  | 0, _, _ => none
  | fuel + 1, i, s =>
    if h : i < s.pendingIceCandidates.length then
      drainPendingLoop fuel (i + 1) (addIceCandidate s (s.pendingIceCandidates.get ⟨i, h⟩))
    else
      some s

/-- Embedding of WebRTCService.createPeerConnection, webrtc.ts lines 143 to 220:
any previous connection is closed and replaced by a fresh one with no remote
description, every local track is attached as a sender, and when the pending
queue is nonempty the queued candidates are fed back through addIceCandidate
and the queue is then cleared.  Returns none when the feed-back loop does not
terminate within the fuel. -/
def createPeerConnection (fuel : Nat) (s : ServiceState) : Option ServiceState :=
  let senders : List Sender :=
    match s.localStream with
    | some st => st.trackIds.map (fun i => { senderTrackId := some i })
    | none => []
  let s1 := { s with peerConnection := some { senders := senders, remoteDescription := none } }
  if s1.pendingIceCandidates.length > 0 then
    (drainPendingLoop fuel 0 s1).map (fun s2 => { s2 with pendingIceCandidates := [] })
  else
    some s1

/-- Embedding of setRemoteDescription as called at webrtc.ts line 284 inside
acceptCall: the remote description of the existing connection is set and
nothing else happens; in particular the pending-candidate queue is not
touched. -/
def setRemoteDescription (s : ServiceState) (sdp : String) : ServiceState :=
  match s.peerConnection with
  | some pc => { s with peerConnection := some { pc with remoteDescription := some sdp } }
  | none => s

/-- Embedding of WebRTCService.handleAnswer, webrtc.ts lines 307 to 322: with
no peer connection the call returns after logging; otherwise the remote
description is set and, again, the pending queue is not touched. -/
def handleAnswer (s : ServiceState) (answer : String) : ServiceState :=
  setRemoteDescription s answer

/-- Embedding of the answer phase of acceptCall, webrtc.ts lines 286 to 297:
createAnswer plus setLocalDescription (one negotiation) and the answer-call
emission. -/
def createAnswerAndSend (s : ServiceState) : ServiceState :=
  { s with offersCreated := s.offersCreated + 1
           sentSignals := s.sentSignals ++ [OutEvent.answerCall s.remoteUserId s.callId] }

/-- Embedding of the continuation of WebRTCService.initiateCall that runs when
the awaited getUserMedia call inside initializeMedia resolves, webrtc.ts lines
113 to 117 and 234 to 252: the acquired stream is stored, a peer connection is
created, an offer is created and set locally, and the call-user signal is
emitted with the remoteUserId and callId parameters of the original
initiateCall invocation.  No field of the state is consulted to decide whether
the surrounding call has ended in the meantime. -/
def initiateCallContinue (fuel : Nat) (s : ServiceState) (stream : MediaStream)
    (remoteUserId : String) (callId : String) (t : CallType) : Option ServiceState :=
  let s1 := { s with localStream := some stream, callType := t }
  (createPeerConnection fuel s1).map fun s2 =>
    { s2 with offersCreated := s2.offersCreated + 1
              sentSignals := s2.sentSignals ++ [OutEvent.callUser remoteUserId callId] }

/-- Embedding of WebRTCService.stopLocalStream, webrtc.ts lines 467 to 475. -/
def stopLocalStream (s : ServiceState) : ServiceState :=
  match s.localStream with
  | some st => { s with heap := stopTracks s.heap st.trackIds, localStream := none }
  | none => s

/-- Embedding of WebRTCService.startScreenShare, webrtc.ts lines 339 to 387,
with the support check assumed to pass and the getDisplayMedia call yielding a
single fresh video track: the screen stream is stored, the original video
track reference is recorded from the local stream, and the outgoing video
sender is switched to the screen track when both a connection and a local
stream exist. -/
def startScreenShare (s : ServiceState) : ServiceState :=
  let scrTrack : Track := { id := s.nextId, kind := TrackKind.video
                            enabled := true, stopped := false }
  let s1 := { s with heap := s.heap ++ [scrTrack], nextId := s.nextId + 1
                     screenStream := some { trackIds := [scrTrack.id] } }
  let s2 :=
    match s1.localStream with
    | some st => { s1 with originalVideoTrack := firstVideoId s1.heap st }
    | none => s1
  let s3 :=
    match s2.peerConnection, s2.localStream with
    | some pc, some _ =>
      { s2 with peerConnection := some (replaceVideoSenderTrack s2.heap pc scrTrack.id) }
    | _, _ => s2
  { s3 with isScreenSharing := true }

/-- Embedding of WebRTCService.stopScreenShare, webrtc.ts lines 389 to 437:
the screen tracks are stopped and the screen stream dropped; then, if a
connection exists and the original video track is still referenced, the video
sender is switched back to it; otherwise, for a video call with a live
connection, a fresh camera track is acquired (getUserMedia), substituted into
the video sender, and swapped into the local stream in place of its first
video track.  Finally the sharing flag and the original-track reference are
cleared.  The awaited steps are embedded in program order. -/
def stopScreenShare (s : ServiceState) : ServiceState :=
  let s1 :=
    match s.screenStream with
    | some scr => { s with heap := stopTracks s.heap scr.trackIds, screenStream := none }
    | none => s
  let s2 :=
    match s1.peerConnection, s1.originalVideoTrack with
    | some pc, some orig =>
      { s1 with peerConnection := some (replaceVideoSenderTrack s1.heap pc orig) }
    | some pc, none =>
      if s1.callType = CallType.video then
        let newTrack : Track := { id := s1.nextId, kind := TrackKind.video
                                  enabled := true, stopped := false }
        let h2 := s1.heap ++ [newTrack]
        let pc2 := replaceVideoSenderTrack h2 pc newTrack.id
        let ls2 : Option MediaStream :=
          match s1.localStream with
          | some st =>
            let afterRemove :=
              match firstVideoId h2 st with
              | some ov => st.trackIds.erase ov
              | none => st.trackIds
            some { trackIds := afterRemove ++ [newTrack.id] }
          | none => none
        { s1 with heap := h2, nextId := s1.nextId + 1
                  peerConnection := some pc2, localStream := ls2 }
      else s1
    | none, _ => s1
  { s2 with isScreenSharing := false, originalVideoTrack := none }

/-- Embedding of WebRTCService.toggleMute, webrtc.ts lines 439 to 449: with a
local stream holding an audio track, the first audio track has its enabled
flag inverted and the method returns the negation of the new flag, which
equals the previous flag; otherwise false is returned and nothing changes. -/
def toggleMute (s : ServiceState) : ServiceState × Bool :=
  match s.localStream with
  | some st =>
    match firstKindTrack s.heap st TrackKind.audio with
    | some t => ({ s with heap := setTrackEnabled s.heap t.id (!t.enabled) }, t.enabled)
    | none => (s, false)
  | none => (s, false)

/-- Embedding of WebRTCService.toggleVideo, webrtc.ts lines 451 to 461: only
when a local stream exists and screen sharing is off is the first video track
toggled and its new flag returned; otherwise true is returned unchanged. -/
def toggleVideo (s : ServiceState) : ServiceState × Bool :=
  match s.localStream with
  | some st =>
    if s.isScreenSharing = false then
      match firstKindTrack s.heap st TrackKind.video with
      | some t => ({ s with heap := setTrackEnabled s.heap t.id (!t.enabled) }, !t.enabled)
      | none => (s, true)
    else (s, true)
  | none => (s, true)

/-- Embedding of the remote-stream block of WebRTCService.endCall, webrtc.ts
lines 489 to 492: stop every remote track and drop the remote stream. -/
def stopRemoteStream (s : ServiceState) : ServiceState :=
  match s.remoteStream with
  | some st => { s with heap := stopTracks s.heap st.trackIds, remoteStream := none }
  | none => s

/-- Embedding of WebRTCService.endCall, webrtc.ts lines 477 to 509: stop
screen share when active, stop the local stream, stop the remote tracks,
close and drop the peer connection, and reset the remaining session fields.
Every nullable access in the source is guarded, which the total embedding
mirrors. -/
def endCall (s : ServiceState) : ServiceState :=
  let s1 := if s.isScreenSharing then stopScreenShare s else s
  let s2 := stopLocalStream s1
  let s3 := stopRemoteStream s2
  { s3 with peerConnection := none
            pendingIceCandidates := []
            isInitiator := false
            remoteUserId := ""
            callId := ""
            originalVideoTrack := none
            isScreenSharing := false }

end WebRTCService

/-! Call store model, from callStore.ts, and its clients in
SocketProvider.tsx and the call screen. -/

/-- RTCPeerConnectionState values read by the subsystem. -/
inductive ConnState where
  | newConn
  | connecting
  | connected
  | disconnected
  | failed
  | closed
deriving DecidableEq, Repr

/-- The fields of a Call record that the handlers construct or read; the
constant server-side metadata fields are omitted. -/
structure StoreCall where
  id : String
  roomId : String
  callKind : CallType
  status : String
  callerId : String
  callerName : String
  callerAvatar : String
deriving DecidableEq, Repr

/-- IncomingCallData as stored by the call store. -/
structure IncomingCallData where
  call : StoreCall
  callerId : String
  callerName : String
  callerAvatar : String
  signal : Option String
deriving DecidableEq, Repr

/-- One entry of the participants map. -/
structure Participant where
  name : String
  avatar : String
  isMuted : Bool
  isVideoEnabled : Bool
deriving DecidableEq, Repr

/-- The zustand call store state, callStore.ts lines 66 to 81, with the
shared track heap alongside the stream references. -/
structure CallStoreState where
  heap : TrackHeap
  activeCall : Option StoreCall
  incomingCall : Option IncomingCallData
  callType : Option CallType
  isCallActive : Bool
  isRinging : Bool
  isMuted : Bool
  isVideoEnabled : Bool
  isScreenSharing : Bool
  callDuration : Nat
  callSignal : Option String
  localStream : Option MediaStream
  remoteStreams : List (String × MediaStream)
  participants : List (String × Participant)
  connectionState : Option ConnState
  iceConnectionState : Option String
deriving DecidableEq, Repr

namespace CallStore

/-- Embedding of the setActiveCall action, callStore.ts lines 83 to 85. -/
def setActiveCall (c : Option StoreCall) (s : CallStoreState) : CallStoreState :=
  { s with activeCall := c, isCallActive := c.isSome }

/-- Embedding of the setIncomingCall action, callStore.ts lines 87 to 93. -/
def setIncomingCall (d : Option IncomingCallData) (s : CallStoreState) : CallStoreState :=
  { s with incomingCall := d, isRinging := d.isSome
           callSignal := d.bind IncomingCallData.signal }

/-- Embedding of the startCall action, callStore.ts lines 95 to 107. -/
def startCall (t : CallType) (s : CallStoreState) : CallStoreState :=
  { s with callType := some t
           isCallActive := true
           isRinging := true
           isVideoEnabled := t = CallType.video
           callDuration := 0
           callSignal := s.incomingCall.bind IncomingCallData.signal
           connectionState := none
           iceConnectionState := none }

/-- Embedding of the endCall action, callStore.ts lines 109 to 139: every
track of the local stream and of every remote stream is stopped and the
whole store is reset to its idle values. -/
def endCall (s : CallStoreState) : CallStoreState :=
  let h1 :=
    match s.localStream with
    | some st => stopTracks s.heap st.trackIds
    | none => s.heap
  let h2 := s.remoteStreams.foldl (fun h p => stopTracks h p.2.trackIds) h1
  { s with heap := h2
           activeCall := none
           incomingCall := none
           callType := none
           isCallActive := false
           isRinging := false
           isMuted := false
           isVideoEnabled := true
           isScreenSharing := false
           callDuration := 0
           callSignal := none
           localStream := none
           remoteStreams := []
           participants := []
           connectionState := none
           iceConnectionState := none }

/-- Embedding of the toggleVideo action, callStore.ts lines 151 to 159: the
video tracks of the local stream are toggled only when a local stream exists
and screen sharing is off; the flag is flipped in every case. -/
def toggleVideo (s : CallStoreState) : CallStoreState :=
  match s.localStream with
  | some st =>
    if s.isScreenSharing = false then
      { s with heap := setStreamKindEnabled s.heap st TrackKind.video (!s.isVideoEnabled)
               isVideoEnabled := !s.isVideoEnabled }
    else
      { s with isVideoEnabled := !s.isVideoEnabled }
  | none => { s with isVideoEnabled := !s.isVideoEnabled }

/-- Embedding of the setVideoEnabled action, callStore.ts lines 175 to 183. -/
def setVideoEnabled (b : Bool) (s : CallStoreState) : CallStoreState :=
  match s.localStream with
  | some st =>
    if s.isScreenSharing = false then
      { s with heap := setStreamKindEnabled s.heap st TrackKind.video b
               isVideoEnabled := b }
    else
      { s with isVideoEnabled := b }
  | none => { s with isVideoEnabled := b }

/-- Embedding of the setConnectionState action, callStore.ts lines 209 to 211. -/
def setConnectionState (st : ConnState) (s : CallStoreState) : CallStoreState :=
  { s with connectionState := some st }

/-- Embedding of the incrementDuration action, callStore.ts lines 236 to 238. -/
def incrementDuration (s : CallStoreState) : CallStoreState :=
  { s with callDuration := s.callDuration + 1 }

end CallStore

/-- The payload of the incoming-call-signal transport event, as destructured
by the SocketProvider handler. -/
structure IncomingSignalData where
  signal : String
  fromUser : String
  callerName : Option String
  callerAvatar : Option String
  callType : Option CallType
  callId : Option String
deriving DecidableEq, Repr

namespace SocketProvider

/-- Embedding of handleIncomingCallSignal, SocketProvider.tsx lines 32 to 92:
when isCallActive is set a user-busy event is emitted back to the new caller
and the handler returns without touching the store; otherwise the incoming
call data is constructed from the payload and stored via setIncomingCall.
The toast notification is display-only and is not modelled. -/
def handleIncomingCallSignal (s : CallStoreState) (d : IncomingSignalData) :
    CallStoreState × List OutEvent :=
  if s.isCallActive then
    (s, [OutEvent.userBusy d.fromUser d.callId])
  else
    let call : StoreCall :=
      { id := d.callId.getD ""
        roomId := d.callId.getD ""
        callKind := d.callType.getD CallType.audio
        status := "ringing"
        callerId := d.fromUser
        callerName := d.callerName.getD "Unknown"
        callerAvatar := d.callerAvatar.getD "" }
    (CallStore.setIncomingCall
      (some { call := call
              callerId := d.fromUser
              callerName := d.callerName.getD "Unknown"
              callerAvatar := d.callerAvatar.getD ""
              signal := some d.signal }) s, [])

end SocketProvider

namespace VideoCallScreen

/-- Embedding of the onConnectionStateChange path: the service handler at
webrtc.ts lines 188 to 196 only logs and forwards the new state to the
registered callback, and the call screen callback at VideoCallScreen lines
100 to 103 stores it via setConnectionState; no other action is taken for
any connection state. -/
def handleConnectionStateChange (s : CallStoreState) (st : ConnState) : CallStoreState :=
  CallStore.setConnectionState st s

/-- Embedding of one tick of the duration timer effect, VideoCallScreen lines
262 to 271: the interval that calls incrementDuration exists exactly while
isCallActive holds and the connection state is connected. -/
def durationTimerTick (s : CallStoreState) : CallStoreState :=
  if s.isCallActive = true ∧ s.connectionState = some ConnState.connected then
    CallStore.incrementDuration s
  else s

/-- The status line rendered by the call screen, with the formatted duration
abstracted to its value. -/
inductive StatusText where
  | durationText (seconds : Nat)
  | connectingText
  | connectionFailedText
  | reconnectingText
  | ringingText
deriving DecidableEq, Repr

/-- Embedding of getStatusText, VideoCallScreen lines 341 to 355. -/
def getStatusText (s : CallStoreState) : StatusText :=
  if s.connectionState = some ConnState.connected then
    StatusText.durationText s.callDuration
  else if s.connectionState = some ConnState.connecting
      ∨ s.connectionState = some ConnState.newConn then
    StatusText.connectingText
  else if s.connectionState = some ConnState.failed then
    StatusText.connectionFailedText
  else if s.connectionState = some ConnState.disconnected then
    StatusText.reconnectingText
  else
    StatusText.ringingText

end VideoCallScreen

/-! Further heap lemmas used by the theorems below. -/

/-- A first track of some kind is dereferenceable: looking its id up in the
heap returns the track itself. -/
theorem firstKindTrack_lookup (h : TrackHeap) (st : MediaStream) (k : TrackKind)
    (t : Track) (hf : firstKindTrack h st k = some t) :
    lookupTrack h t.id = some t := by
  have hmem := List.mem_of_find?_eq_some hf
  rw [List.mem_filterMap] at hmem
  obtain ⟨i, _, hl⟩ := hmem
  have hid := lookupTrack_id h i t hl
  rw [hid]
  exact hl

/-- A first track of some kind has that kind. -/
theorem firstKindTrack_kind (h : TrackHeap) (st : MediaStream) (k : TrackKind)
    (t : Track) (hf : firstKindTrack h st k = some t) : t.kind = k := by
  have := List.find?_some hf
  simpa using this

/-- The conditional rewrite used by setTrackEnabled keeps track ids. -/
theorem setTrackEnabled_keeps_id (i : Nat) (b : Bool) (t : Track) :
    (if t.id = i then { t with enabled := b } else t).id = t.id := by
  split <;> rfl

/-- Track lookup after a single-track enabled-flag write. -/
theorem lookupTrack_setTrackEnabled (h : TrackHeap) (i : Nat) (b : Bool) (j : Nat) :
    lookupTrack (setTrackEnabled h i b) j
      = (lookupTrack h j).map (fun t => if t.id = i then { t with enabled := b } else t) := by
  exact lookupTrack_map h _ (setTrackEnabled_keeps_id i b) j

/-- Writing the enabled flag of one track leaves every other track unchanged. -/
theorem lookupTrack_setTrackEnabled_ne (h : TrackHeap) (i : Nat) (b : Bool) (j : Nat)
    (hne : j ≠ i) : lookupTrack (setTrackEnabled h i b) j = lookupTrack h j := by
  rw [lookupTrack_setTrackEnabled]
  cases hu : lookupTrack h j with
  | none => rfl
  | some u =>
    have hid := lookupTrack_id h j u hu
    have hni : ¬(u.id = i) := by rw [hid]; exact hne
    simp [hni]

/-- Stopping an empty id list changes nothing. -/
theorem stopTracks_nil (h : TrackHeap) : stopTracks h [] = h := by
  simp [stopTracks]

/-- Track lookup across an appended singleton heap cell. -/
theorem lookupTrack_append_single (h : TrackHeap) (nt : Track) (i : Nat) :
    lookupTrack (h ++ [nt]) i
      = match lookupTrack h i with
        | some t => some t
        | none => if nt.id = i then some nt else none := by
  induction h with
  | nil =>
    simp only [List.nil_append, lookupTrack, List.find?]
    by_cases hb : nt.id = i
    · have hbe : (nt.id == i) = true := by simp [hb]
      simp [hbe, hb]
    · have hbe : (nt.id == i) = false := by simp [hb]
      simp [hbe, hb]
  | cons t ts ih =>
    simp only [List.cons_append, lookupTrack, List.find?] at *
    by_cases hb : t.id = i
    · simp [hb]
    · have h1 : (t.id == i) = false := by simp [hb]
      simp only [h1]
      exact ih

/-- A stopped track stays stopped when a fresh track with a different id is
appended to the heap. -/
theorem trackStopped_append_single (h : TrackHeap) (nt : Track) (i : Nat)
    (hs : trackStopped h i) (hne : nt.id ≠ i) : trackStopped (h ++ [nt]) i := by
  intro t ht
  rw [lookupTrack_append_single] at ht
  cases hu : lookupTrack h i with
  | none =>
    rw [hu] at ht
    simp only [if_neg hne] at ht
    exact Option.noConfusion ht
  | some u =>
    rw [hu] at ht
    simp only [Option.some.injEq] at ht
    rw [← ht]
    exact hs u hu

/-! Shared example states used for witnesses and counterexamples. -/

/-- A fresh service state, as the WebRTCService singleton after construction. -/
def exBaseService : ServiceState :=
  { heap := [], nextId := 0, peerConnection := none, localStream := none
    remoteStream := none, screenStream := none, pendingIceCandidates := []
    isInitiator := false, remoteUserId := "", callId := ""
    callType := CallType.audio, isScreenSharing := false
    originalVideoTrack := none, appliedCandidates := [], sentSignals := []
    offersCreated := 0 }

/-- A fresh call store state, as the initial zustand store values. -/
def exBaseStore : CallStoreState :=
  { heap := [], activeCall := none, incomingCall := none, callType := none
    isCallActive := false, isRinging := false, isMuted := false
    isVideoEnabled := true, isScreenSharing := false, callDuration := 0
    callSignal := none, localStream := none, remoteStreams := []
    participants := [], connectionState := none, iceConnectionState := none }

/-- An insecure non-loopback browser environment. -/
def exInsecureEnv : BrowserEnv :=
  { inBrowser := true, isSecureContext := false, hostname := "example.com"
    hasMediaDevices := true, hasGetUserMedia := true, hasRTCPeerConnection := true }

/-! Claim C7. -/

/-- Claim C7: for every call of the media-acquisition operation
(initializeMedia), if the execution context is not a secure context (and not
loopback) or does not expose the capture capability, the operation fails with
an error before any platform capture call is attempted; no getUserMedia
request is issued in that case. -/
theorem C7_initializeMedia_fails_fast (env : BrowserEnv) (t : CallType)
    (h : (env.isSecureContext = false ∧ env.hostname ≠ "localhost" ∧ env.hostname ≠ "127.0.0.1")
      ∨ env.hasMediaDevices = false ∨ env.hasGetUserMedia = false) :
    (∃ msg, (initializeMediaAttempt env t).1 = Except.error msg)
      ∧ (initializeMediaAttempt env t).2 = [] := by
  have hsup : (checkWebRTCSupport env).supported = false := by
    unfold checkWebRTCSupport
    by_cases hb : env.inBrowser = false
    · simp [hb]
    · rcases h with ⟨h1, h2, h3⟩ | h4 | h5
      · simp [hb, h1, h2, h3]
      · by_cases hsec : env.isSecureContext = false
          ∧ env.hostname ≠ "localhost" ∧ env.hostname ≠ "127.0.0.1"
        · simp [hb, hsec]
        · simp [hb, hsec, h4]
      · by_cases hsec : env.isSecureContext = false
          ∧ env.hostname ≠ "localhost" ∧ env.hostname ≠ "127.0.0.1"
        · simp [hb, hsec]
        · simp [hb, hsec, h5]
  have e : initializeMediaAttempt env t
      = (Except.error ((checkWebRTCSupport env).error.getD "WebRTC not supported"), []) := by
    unfold initializeMediaAttempt
    simp [hsup]
  rw [e]
  exact ⟨⟨_, rfl⟩, rfl⟩

/-- Witness for claim C7 at the insecure non-loopback environment. -/
theorem C7_initializeMedia_fails_fast_witness :
    (∃ msg, (initializeMediaAttempt exInsecureEnv CallType.video).1 = Except.error msg)
      ∧ (initializeMediaAttempt exInsecureEnv CallType.video).2 = [] :=
  C7_initializeMedia_fails_fast exInsecureEnv CallType.video
    (Or.inl ⟨rfl, by decide, by decide⟩)

/-! Claim C9. -/

/-- Claim C9: for every call of WebRTCService.toggleMute, if a local stream
with at least one audio track exists, the first audio track has its enabled
flag inverted, every other track is untouched, and the returned boolean is
the previous enabled flag, which equals the new muted state (true exactly
when the track is now disabled); if no local stream or no audio track exists,
the call returns false and changes nothing. -/
theorem C9_toggleMute_spec (s : ServiceState) :
    (∀ st t, s.localStream = some st →
      firstKindTrack s.heap st TrackKind.audio = some t →
      (WebRTCService.toggleMute s).2 = t.enabled
      ∧ lookupTrack (WebRTCService.toggleMute s).1.heap t.id
          = some { t with enabled := !t.enabled }
      ∧ ((WebRTCService.toggleMute s).2 = true ↔ (!t.enabled) = false)
      ∧ (∀ j, j ≠ t.id →
          lookupTrack (WebRTCService.toggleMute s).1.heap j = lookupTrack s.heap j)
      ∧ (WebRTCService.toggleMute s).1
          = { s with heap := (WebRTCService.toggleMute s).1.heap })
    ∧ (s.localStream = none → WebRTCService.toggleMute s = (s, false))
    ∧ (∀ st, s.localStream = some st →
        firstKindTrack s.heap st TrackKind.audio = none →
        WebRTCService.toggleMute s = (s, false)) := by
  refine ⟨?_, ?_, ?_⟩
  · intro st t hls hft
    have e : WebRTCService.toggleMute s
        = ({ s with heap := setTrackEnabled s.heap t.id (!t.enabled) }, t.enabled) := by
      simp only [WebRTCService.toggleMute, hls, hft]
    rw [e]
    refine ⟨rfl, ?_, ?_, ?_, rfl⟩
    · have hl := firstKindTrack_lookup s.heap st TrackKind.audio t hft
      rw [lookupTrack_setTrackEnabled, hl]
      simp
    · cases hen : t.enabled <;> simp [hen]
    · intro j hj
      exact lookupTrack_setTrackEnabled_ne s.heap t.id (!t.enabled) j hj
  · intro h0
    simp only [WebRTCService.toggleMute, h0]
  · intro st hls hft
    simp only [WebRTCService.toggleMute, hls, hft]

/-- A service state holding one enabled audio track in the local stream. -/
def exMuteService : ServiceState :=
  { exBaseService with
      heap := [{ id := 1, kind := TrackKind.audio, enabled := true, stopped := false }]
      nextId := 2
      localStream := some { trackIds := [1] } }

/-- Witness for claim C9: toggling mute on the example state returns true and
disables the audio track. -/
theorem C9_toggleMute_spec_witness :
    (WebRTCService.toggleMute exMuteService).2 = true
    ∧ lookupTrack (WebRTCService.toggleMute exMuteService).1.heap 1
        = some { id := 1, kind := TrackKind.audio, enabled := false, stopped := false } := by
  have h := (C9_toggleMute_spec exMuteService).1 { trackIds := [1] }
    { id := 1, kind := TrackKind.audio, enabled := true, stopped := false } rfl (by decide)
  exact ⟨h.1, h.2.1⟩

/-! Claim C10. -/

/-- Claim C10: while isScreenSharing is true, the store actions toggleVideo
and setVideoEnabled change only the isVideoEnabled flag; the track heap, and
with it the enabled flag of every local media track, and every other store
field are left unchanged. -/
theorem C10_video_toggle_frame (s : CallStoreState) (b : Bool)
    (h : s.isScreenSharing = true) :
    CallStore.toggleVideo s = { s with isVideoEnabled := !s.isVideoEnabled }
    ∧ CallStore.setVideoEnabled b s = { s with isVideoEnabled := b } := by
  constructor
  · unfold CallStore.toggleVideo
    cases hls : s.localStream with
    | none => rfl
    | some st => simp [h]
  · unfold CallStore.setVideoEnabled
    cases hls : s.localStream with
    | none => rfl
    | some st => simp [h]

/-- A store state with an enabled video track while screen sharing. -/
def exShareStore : CallStoreState :=
  { exBaseStore with
      heap := [{ id := 4, kind := TrackKind.video, enabled := true, stopped := false }]
      isCallActive := true
      isScreenSharing := true
      localStream := some { trackIds := [4] } }

/-- Witness for claim C10 at the screen-sharing example state. -/
theorem C10_video_toggle_frame_witness :
    CallStore.toggleVideo exShareStore
      = { exShareStore with isVideoEnabled := !exShareStore.isVideoEnabled }
    ∧ CallStore.setVideoEnabled false exShareStore
      = { exShareStore with isVideoEnabled := false } :=
  C10_video_toggle_frame exShareStore false rfl

/-! Claim C5. -/

/-- Claim C5: the duration counter is incremented by a timer tick exactly
when the call is active and the connection state is connected; a
connection-state change (in particular one into the terminal failed or
closed states) never resets it; it is zeroed by the endCall action, which is
the single transition that also returns the store to idle. -/
theorem C5_duration_accounting (s : CallStoreState) (st : ConnState) :
    ((VideoCallScreen.durationTimerTick s).callDuration
      = if s.isCallActive = true ∧ s.connectionState = some ConnState.connected
        then s.callDuration + 1 else s.callDuration)
    ∧ (¬(s.isCallActive = true ∧ s.connectionState = some ConnState.connected) →
        VideoCallScreen.durationTimerTick s = s)
    ∧ (CallStore.setConnectionState st s).callDuration = s.callDuration
    ∧ (CallStore.endCall s).callDuration = 0
    ∧ (CallStore.endCall s).isCallActive = false
    ∧ (CallStore.endCall s).activeCall = none
    ∧ (CallStore.endCall s).incomingCall = none := by
  refine ⟨?_, ?_, rfl, ?_, ?_, ?_, ?_⟩
  · unfold VideoCallScreen.durationTimerTick CallStore.incrementDuration
    split <;> rfl
  · intro hn
    unfold VideoCallScreen.durationTimerTick
    rw [if_neg hn]
  all_goals simp [CallStore.endCall]

/-- A store state for an established call seven seconds in. -/
def exActiveStore : CallStoreState :=
  { exBaseStore with
      activeCall := some { id := "call-1", roomId := "call-1"
                           callKind := CallType.video, status := "ongoing"
                           callerId := "user-a", callerName := "Alice"
                           callerAvatar := "" }
      callType := some CallType.video
      isCallActive := true
      callDuration := 7
      connectionState := some ConnState.connected }

/-- Witness for claim C5: a tick at the active connected example state
increments the counter, a failed connection state does not reset it, and
endCall zeroes it while returning to idle. -/
theorem C5_duration_accounting_witness :
    (VideoCallScreen.durationTimerTick exBaseStore = exBaseStore)
    ∧ (CallStore.setConnectionState ConnState.failed exActiveStore).callDuration
        = exActiveStore.callDuration
    ∧ (CallStore.endCall exActiveStore).callDuration = 0 := by
  have h1 := C5_duration_accounting exBaseStore ConnState.failed
  have h2 := C5_duration_accounting exActiveStore ConnState.failed
  exact ⟨h1.2.1 (by decide), h2.2.2.1, h2.2.2.2.1⟩

/-! Claim C2.  The busy auto-reject is keyed on isCallActive, which the store
leaves false while an incoming call is merely ringing: setIncomingCall sets
only isRinging.  A second incoming signal in that state therefore does not
produce a busy event and replaces the pending incoming call. -/

/-- The incoming-call data stored for the first ringing caller. -/
def exFirstIncoming : IncomingCallData :=
  { call := { id := "call-1", roomId := "call-1", callKind := CallType.audio
              status := "ringing", callerId := "user-a", callerName := "Alice"
              callerAvatar := "" }
    callerId := "user-a", callerName := "Alice", callerAvatar := ""
    signal := some "offer-a" }

/-- The store while the first incoming call is ringing and not yet accepted:
this is the state setIncomingCall produces, with isCallActive still false. -/
def exRingingStore : CallStoreState :=
  { exBaseStore with
      incomingCall := some exFirstIncoming
      isRinging := true
      callSignal := some "offer-a" }

/-- The second incoming call signal, from a different caller. -/
def exSecondSignal : IncomingSignalData :=
  { signal := "offer-c", fromUser := "user-c", callerName := some "Carol"
    callerAvatar := none, callType := some CallType.audio, callId := some "call-2" }

/-- Counterexample to claim C2 as stated: in the incoming-ringing state,
which is non-idle and non-ended, a further incoming call signal emits no
user-busy event and does change the session state, replacing the pending
incoming call of the first caller. -/
theorem C2_incoming_ring_counterexample :
    (SocketProvider.handleIncomingCallSignal exRingingStore exSecondSignal).2 = []
    ∧ (SocketProvider.handleIncomingCallSignal exRingingStore exSecondSignal).1.incomingCall
        ≠ some exFirstIncoming := by
  constructor
  · rfl
  · decide

/-- Claim C2 as amended: a further incoming call signal is answered with a
user-busy event and leaves the store completely unchanged exactly when
isCallActive is true, which holds in the outgoing-ringing, connecting and
active states (set by startCall or setActiveCall) but not while an incoming
call is merely ringing; in the latter state the handler instead overwrites
the pending incoming call and emits nothing. -/
theorem C2_busy_requires_isCallActive (s : CallStoreState) (d : IncomingSignalData)
    (h : s.isCallActive = true) :
    SocketProvider.handleIncomingCallSignal s d
      = (s, [OutEvent.userBusy d.fromUser d.callId]) := by
  unfold SocketProvider.handleIncomingCallSignal
  simp [h]

/-- Witness for the amended claim C2 at an active-call store state. -/
theorem C2_busy_requires_isCallActive_witness :
    SocketProvider.handleIncomingCallSignal exActiveStore exSecondSignal
      = (exActiveStore, [OutEvent.userBusy "user-c" (some "call-2")]) :=
  C2_busy_requires_isCallActive exActiveStore exSecondSignal rfl

/-! Claim C6.  Neither the service connection-state observer nor the call
screen callback ends the call for any connection state: the observer only
logs and forwards, and the callback only records the state in the store.
The disconnected versus failed distinction exists solely in the rendered
status text. -/

/-- Counterexample to claim C6 as stated: a connection-state change to
failed does not terminate the call; the store stays active with the same
activeCall, so failed does not drive a transition to ended. -/
theorem C6_failed_counterexample :
    (VideoCallScreen.handleConnectionStateChange exActiveStore ConnState.failed).isCallActive
        = true
    ∧ (VideoCallScreen.handleConnectionStateChange exActiveStore ConnState.failed).activeCall
        = exActiveStore.activeCall
    ∧ (VideoCallScreen.handleConnectionStateChange exActiveStore ConnState.failed).localStream
        = exActiveStore.localStream := by
  exact ⟨rfl, rfl, rfl⟩

/-- Claim C6 as amended: no connection-state change by itself ends the call;
for every target state, including failed and closed, the handler chain only
records the new state and leaves every other store field, in particular
isCallActive and activeCall, unchanged.  The transient treatment of
disconnected and the terminal flavour of failed surface only in the status
text, which shows a reconnecting message for disconnected and a failure
message for failed. -/
theorem C6_connection_state_only_recorded (s : CallStoreState) (st : ConnState) :
    VideoCallScreen.handleConnectionStateChange s st = { s with connectionState := some st }
    ∧ (s.connectionState = some ConnState.disconnected →
        VideoCallScreen.getStatusText s = VideoCallScreen.StatusText.reconnectingText)
    ∧ (s.connectionState = some ConnState.failed →
        VideoCallScreen.getStatusText s = VideoCallScreen.StatusText.connectionFailedText) := by
  refine ⟨rfl, ?_, ?_⟩
  · intro hd
    unfold VideoCallScreen.getStatusText
    rw [hd]
    simp
  · intro hf
    unfold VideoCallScreen.getStatusText
    rw [hf]
    simp

/-- Witness for the amended claim C6 at the active example store. -/
theorem C6_connection_state_only_recorded_witness :
    VideoCallScreen.handleConnectionStateChange exActiveStore ConnState.failed
      = { exActiveStore with connectionState := some ConnState.failed }
    ∧ VideoCallScreen.getStatusText
        { exActiveStore with connectionState := some ConnState.failed }
      = VideoCallScreen.StatusText.connectionFailedText := by
  have h1 := C6_connection_state_only_recorded exActiveStore ConnState.failed
  have h2 := C6_connection_state_only_recorded
    { exActiveStore with connectionState := some ConnState.failed } ConnState.failed
  exact ⟨h1.1, h2.2.2 rfl⟩

/-! Claim C1.  The source never drains the pending queue after the remote
description is set: acceptCall and handleAnswer call setRemoteDescription and
nothing more.  The only drain sits inside createPeerConnection and runs
before a remote description exists, where addIceCandidate re-queues each
candidate onto the very array the for-of loop is iterating, so the loop never
terminates when the queue is nonempty; and a candidate queued after
createPeerConnection has run is never drained at all. -/

/-- The feed-back loop of createPeerConnection never terminates once the
index is inside a nonempty queue and the connection has no remote
description: each addIceCandidate call appends the candidate back, keeping
the index strictly below the growing length. -/
theorem drainPendingLoop_diverges (fuel : Nat) :
    ∀ (i : Nat) (s : ServiceState) (pc : PeerConnection),
      s.peerConnection = some pc → pc.remoteDescription = none →
      i < s.pendingIceCandidates.length →
      WebRTCService.drainPendingLoop fuel i s = none := by
  induction fuel with
  | zero => intro i s pc _ _ _; rfl
  | succ n ih =>
    intro i s pc hpc hrd hi
    unfold WebRTCService.drainPendingLoop
    rw [dif_pos hi]
    have heq : WebRTCService.addIceCandidate s (s.pendingIceCandidates.get ⟨i, hi⟩)
        = { s with pendingIceCandidates :=
              s.pendingIceCandidates ++ [s.pendingIceCandidates.get ⟨i, hi⟩] } := by
      simp only [WebRTCService.addIceCandidate, hpc, hrd]
    rw [heq]
    apply ih (i + 1) _ pc
    · exact hpc
    · exact hrd
    · simp
      omega

/-- The callee state after initializeMedia succeeded, before the peer
connection exists: one audio and one video track in the local stream. -/
def exCalleeMedia : ServiceState :=
  { exBaseService with
      heap := [{ id := 1, kind := TrackKind.audio, enabled := true, stopped := false },
               { id := 2, kind := TrackKind.video, enabled := true, stopped := false }]
      nextId := 3
      localStream := some { trackIds := [1, 2] }
      remoteUserId := "user-a"
      callId := "call-1"
      callType := CallType.video }

/-- The same state with one candidate already queued, as when the caller
candidates arrive over the socket while the callee is still ringing. -/
def exCalleePreQueued : ServiceState :=
  { exCalleeMedia with pendingIceCandidates := ["cand-0"] }

/-- The state createPeerConnection reaches just before its feed-back loop
when starting from the pre-queued callee state. -/
def exDrainStart : ServiceState :=
  { exCalleePreQueued with
      peerConnection := some
        { senders := [{ senderTrackId := some 1 }, { senderTrackId := some 2 }]
          remoteDescription := none } }

/-- The full acceptCall pipeline for the callee with no pre-queued candidate:
createPeerConnection, then one candidate arriving over the socket before the
remote description is set, then setRemoteDescription and the answer phase. -/
def exAcceptTrace : Option ServiceState :=
  (WebRTCService.createPeerConnection 5 exCalleeMedia).map fun s1 =>
    WebRTCService.createAnswerAndSend
      (WebRTCService.setRemoteDescription
        (WebRTCService.addIceCandidate s1 "cand-1") "offer-a")

/-- Claim C1 fails on the code: first, with a candidate queued before
createPeerConnection runs, the drain loop diverges for every fuel bound, so
the queue is never successfully drained and acceptCall never completes;
second, a candidate that arrives after the connection is created but before
the remote description is set stays in the pending queue for ever and is
never applied to the underlying connection, even though the remote
description has been set, so it is dropped rather than applied exactly
once. -/
theorem C1_pending_queue_mishandled :
    (∀ fuel, WebRTCService.createPeerConnection fuel exCalleePreQueued = none)
    ∧ exAcceptTrace.map
        (fun s4 => (s4.appliedCandidates, s4.pendingIceCandidates,
                    s4.peerConnection.map PeerConnection.remoteDescription))
      = some ([], ["cand-1"], some (some "offer-a")) := by
  constructor
  · intro fuel
    have e : WebRTCService.createPeerConnection fuel exCalleePreQueued
        = (WebRTCService.drainPendingLoop fuel 0 exDrainStart).map
            (fun s2 => { s2 with pendingIceCandidates := [] }) := rfl
    rw [e]
    rw [drainPendingLoop_diverges fuel 0 exDrainStart
      { senders := [{ senderTrackId := some 1 }, { senderTrackId := some 2 }]
        remoteDescription := none } rfl rfl (by decide)]
    rfl
  · rfl

/-! Claim C4.  Neither initiateCall nor acceptCall checks, after an awaited
step resolves, whether the session has ended or been superseded in the
meantime: there is no comparison against the current callId and no ended
flag.  The continuation that runs when getUserMedia resolves therefore
mutates the service state and emits the offer even when endCall already ran
while the acquisition was in flight. -/

/-- The caller state right after the synchronous prefix of
initiateCall(user-b, call-7, video): identifiers are recorded and the
getUserMedia call inside initializeMedia is in flight. -/
def exCallerPrefix : ServiceState :=
  { exBaseService with
      isInitiator := true
      remoteUserId := "user-b"
      callId := "call-7"
      callType := CallType.video }

/-- Claim C4 fails on the code: run endCall while the media acquisition of
initiateCall is in flight, so the session is ended and cleared; when the
acquisition then resolves, the continuation still stores the stream, builds
a new peer connection, performs a negotiation and emits the call-user offer
for the ended call.  The late result is not discarded: no stale-result guard
keyed by callId exists. -/
theorem C4_no_stale_result_guard :
    (WebRTCService.endCall exCallerPrefix).callId = ""
    ∧ (WebRTCService.endCall exCallerPrefix).peerConnection = none
    ∧ (WebRTCService.initiateCallContinue 4 (WebRTCService.endCall exCallerPrefix)
        { trackIds := [10, 11] } "user-b" "call-7" CallType.video).map
        (fun s2 => (s2.sentSignals, s2.peerConnection.isSome,
                    s2.localStream, s2.offersCreated))
      = some ([OutEvent.callUser "user-b" "call-7"], true,
              some { trackIds := [10, 11] }, 1) := by
  exact ⟨rfl, rfl, rfl⟩

/-! Claim C8. -/

/-- When some sender carries a video track, the replacement attaches the new
track id to a sender of the resulting list. -/
theorem replaceFirstVideoSender_attaches (h : TrackHeap) (ni : Nat) :
    ∀ l : List Sender, (∃ sd ∈ l, isVideoSender h sd = true) →
      (Sender.mk (some ni)) ∈ replaceFirstVideoSender h ni l := by
  intro l
  induction l with
  | nil => rintro ⟨sd, hmem, _⟩; simp at hmem
  | cons a rest ih =>
    rintro ⟨sd, hmem, hv⟩
    by_cases ha : isVideoSender h a = true
    · simp [replaceFirstVideoSender, ha]
    · have : sd ∈ rest := by
        rcases List.mem_cons.mp hmem with he | hr
        · rw [he] at hv; exact absurd hv ha
        · exact hr
      simp only [replaceFirstVideoSender, if_neg ha]
      exact List.mem_cons_of_mem a (ih ⟨sd, this, hv⟩)

/-- Claim C8: when screen sharing stops with a live connection, the screen
tracks are stopped and the screen stream dropped; if the original camera
track is still referenced, the state is exactly the original one with the
screen tracks stopped and the video sender switched back to the original
track, with no negotiation and no signal emitted; if the original track is
gone and the call is a video call, a fresh camera track (the next free id)
is acquired into the heap and substituted into the video sender instead,
again with no negotiation and no signal emitted. -/
theorem C8_stopScreenShare_restore (s : ServiceState) (scr : MediaStream)
    (pc : PeerConnection) (hscr : s.screenStream = some scr)
    (hpc : s.peerConnection = some pc) :
    (∀ orig, s.originalVideoTrack = some orig →
      WebRTCService.stopScreenShare s
        = { s with heap := stopTracks s.heap scr.trackIds
                   screenStream := none
                   peerConnection := some
                     (replaceVideoSenderTrack (stopTracks s.heap scr.trackIds) pc orig)
                   isScreenSharing := false
                   originalVideoTrack := none }
      ∧ (∀ i ∈ scr.trackIds, trackStopped (WebRTCService.stopScreenShare s).heap i)
      ∧ ((∃ sd ∈ pc.senders, isVideoSender (stopTracks s.heap scr.trackIds) sd = true) →
          ∃ pc2, (WebRTCService.stopScreenShare s).peerConnection = some pc2
            ∧ Sender.mk (some orig) ∈ pc2.senders))
    ∧ (s.originalVideoTrack = none → s.callType = CallType.video →
      (WebRTCService.stopScreenShare s).heap
          = stopTracks s.heap scr.trackIds
            ++ [{ id := s.nextId, kind := TrackKind.video, enabled := true, stopped := false }]
      ∧ (WebRTCService.stopScreenShare s).peerConnection
          = some (replaceVideoSenderTrack (WebRTCService.stopScreenShare s).heap pc s.nextId)
      ∧ (WebRTCService.stopScreenShare s).isScreenSharing = false
      ∧ (WebRTCService.stopScreenShare s).screenStream = none
      ∧ (WebRTCService.stopScreenShare s).sentSignals = s.sentSignals
      ∧ (WebRTCService.stopScreenShare s).offersCreated = s.offersCreated
      ∧ ((∀ i ∈ scr.trackIds, i ≠ s.nextId) →
          ∀ i ∈ scr.trackIds, trackStopped (WebRTCService.stopScreenShare s).heap i)
      ∧ ((∃ sd ∈ pc.senders,
            isVideoSender (WebRTCService.stopScreenShare s).heap sd = true) →
          ∃ pc2, (WebRTCService.stopScreenShare s).peerConnection = some pc2
            ∧ Sender.mk (some s.nextId) ∈ pc2.senders)) := by
  constructor
  · intro orig horig
    have e : WebRTCService.stopScreenShare s
        = { s with heap := stopTracks s.heap scr.trackIds
                   screenStream := none
                   peerConnection := some
                     (replaceVideoSenderTrack (stopTracks s.heap scr.trackIds) pc orig)
                   isScreenSharing := false
                   originalVideoTrack := none } := by
      simp only [WebRTCService.stopScreenShare, hscr, hpc, horig]
    refine ⟨e, ?_, ?_⟩
    · intro i hi
      rw [e]
      exact trackStopped_stopTracks_of_mem s.heap scr.trackIds i hi
    · intro hex
      refine ⟨replaceVideoSenderTrack (stopTracks s.heap scr.trackIds) pc orig, ?_, ?_⟩
      · rw [e]
      · exact replaceFirstVideoSender_attaches _ orig pc.senders hex
  · intro horig hct
    have eh : (WebRTCService.stopScreenShare s).heap
        = stopTracks s.heap scr.trackIds
          ++ [{ id := s.nextId, kind := TrackKind.video, enabled := true, stopped := false }] := by
      simp only [WebRTCService.stopScreenShare, hscr, hpc, horig, hct, if_true]
    have ep : (WebRTCService.stopScreenShare s).peerConnection
        = some (replaceVideoSenderTrack
            (stopTracks s.heap scr.trackIds
              ++ [{ id := s.nextId, kind := TrackKind.video, enabled := true, stopped := false }])
            pc s.nextId) := by
      simp only [WebRTCService.stopScreenShare, hscr, hpc, horig, hct, if_true]
    refine ⟨eh, ?_, ?_, ?_, ?_, ?_, ?_, ?_⟩
    · rw [eh, ep]
    · simp only [WebRTCService.stopScreenShare, hscr, hpc, horig, hct, if_true]
    · simp only [WebRTCService.stopScreenShare, hscr, hpc, horig, hct, if_true]
    · simp only [WebRTCService.stopScreenShare, hscr, hpc, horig, hct, if_true]
    · simp only [WebRTCService.stopScreenShare, hscr, hpc, horig, hct, if_true]
    · intro hfr i hi
      rw [eh]
      exact trackStopped_append_single _ _ i
        (trackStopped_stopTracks_of_mem s.heap scr.trackIds i hi)
        (fun hc => (hfr i hi) hc.symm)
    · intro hex
      rw [eh] at hex
      refine ⟨_, ep, ?_⟩
      exact replaceFirstVideoSender_attaches _ s.nextId pc.senders hex

/-- A service state during an active video call with screen sharing on: the
camera track 2 is still referenced as the original video track, the sender
list carries the screen track 5, and the local stream still holds tracks 1
and 2. -/
def exShareService : ServiceState :=
  { exBaseService with
      heap := [{ id := 1, kind := TrackKind.audio, enabled := true, stopped := false },
               { id := 2, kind := TrackKind.video, enabled := true, stopped := false },
               { id := 5, kind := TrackKind.video, enabled := true, stopped := false }]
      nextId := 6
      peerConnection := some
        { senders := [{ senderTrackId := some 1 }, { senderTrackId := some 5 }]
          remoteDescription := some "answer-b" }
      localStream := some { trackIds := [1, 2] }
      screenStream := some { trackIds := [5] }
      remoteUserId := "user-b"
      callId := "call-1"
      callType := CallType.video
      isScreenSharing := true
      originalVideoTrack := some 2 }

/-- Witness for claim C8: stopping screen share on the example state stops
the screen track and reattaches the original camera track 2 to a sender. -/
theorem C8_stopScreenShare_restore_witness :
    (∃ pc2, (WebRTCService.stopScreenShare exShareService).peerConnection = some pc2
      ∧ Sender.mk (some 2) ∈ pc2.senders)
    ∧ (WebRTCService.stopScreenShare exShareService).isScreenSharing = false
    ∧ (WebRTCService.stopScreenShare exShareService).screenStream = none := by
  have h := (C8_stopScreenShare_restore exShareService { trackIds := [5] }
    { senders := [{ senderTrackId := some 1 }, { senderTrackId := some 5 }]
      remoteDescription := some "answer-b" } rfl rfl).1 2 rfl
  refine ⟨h.2.2 ⟨{ senderTrackId := some 5 }, by decide, by decide⟩, ?_, ?_⟩
  · rw [h.1]
  · rw [h.1]

/-! Claim C3. -/

/-- The track ids of the screen stream, empty when none is held. -/
def scrIds (s : ServiceState) : List Nat :=
  match s.screenStream with
  | some scr => scr.trackIds
  | none => []

/-- The track ids of the local stream, empty when none is held. -/
def localIds (s : ServiceState) : List Nat :=
  match s.localStream with
  | some st => st.trackIds
  | none => []

/-- The track ids of the remote stream, empty when none is held. -/
def remoteIds (s : ServiceState) : List Nat :=
  match s.remoteStream with
  | some st => st.trackIds
  | none => []

/-- Without a screen stream there are no screen track ids. -/
theorem scrIds_none (s : ServiceState) (h : s.screenStream = none) : scrIds s = [] := by
  unfold scrIds
  rw [h]

/-- Screen-stream ids agree between states with equal screen streams. -/
theorem localIds_congr {a b : ServiceState} (h : a.localStream = b.localStream) :
    localIds a = localIds b := by
  unfold localIds
  rw [h]

/-- Remote-stream ids agree between states with equal remote streams. -/
theorem remoteIds_congr {a b : ServiceState} (h : a.remoteStream = b.remoteStream) :
    remoteIds a = remoteIds b := by
  unfold remoteIds
  rw [h]

/-- Field behaviour of stopScreenShare outside its camera re-acquisition
branch, which runs only when the original track is gone on a video call with
a live connection: the screen tracks are stopped, local and remote streams
are untouched, and the screen stream is dropped. -/
theorem stopScreenShare_fields (s : ServiceState)
    (hno : s.originalVideoTrack ≠ none ∨ s.peerConnection = none
      ∨ s.callType = CallType.audio) :
    (WebRTCService.stopScreenShare s).heap = stopTracks s.heap (scrIds s)
    ∧ (WebRTCService.stopScreenShare s).localStream = s.localStream
    ∧ (WebRTCService.stopScreenShare s).remoteStream = s.remoteStream
    ∧ (WebRTCService.stopScreenShare s).screenStream = none := by
  cases hpc : s.peerConnection with
  | none =>
    cases hscr : s.screenStream with
    | none => simp [WebRTCService.stopScreenShare, hscr, hpc, scrIds, stopTracks_nil]
    | some scr => simp [WebRTCService.stopScreenShare, hscr, hpc, scrIds]
  | some pc =>
    cases hov : s.originalVideoTrack with
    | some orig =>
      cases hscr : s.screenStream with
      | none => simp [WebRTCService.stopScreenShare, hscr, hpc, hov, scrIds, stopTracks_nil]
      | some scr => simp [WebRTCService.stopScreenShare, hscr, hpc, hov, scrIds]
    | none =>
      have hct : s.callType = CallType.audio := by
        rcases hno with h1 | h2 | h3
        · exact absurd hov h1
        · rw [hpc] at h2; exact Option.noConfusion h2
        · exact h3
      have hcv : ¬(s.callType = CallType.video) := by simp [hct]
      cases hscr : s.screenStream with
      | none => simp [WebRTCService.stopScreenShare, hscr, hpc, hov, hcv, scrIds, stopTracks_nil]
      | some scr => simp [WebRTCService.stopScreenShare, hscr, hpc, hov, hcv, scrIds]

/-- Field behaviour of stopLocalStream. -/
theorem stopLocalStream_fields (s : ServiceState) :
    (WebRTCService.stopLocalStream s).heap = stopTracks s.heap (localIds s)
    ∧ (WebRTCService.stopLocalStream s).localStream = none
    ∧ (WebRTCService.stopLocalStream s).remoteStream = s.remoteStream
    ∧ (WebRTCService.stopLocalStream s).screenStream = s.screenStream := by
  cases hls : s.localStream <;>
    simp [WebRTCService.stopLocalStream, localIds, hls, stopTracks_nil]

/-- Field behaviour of the remote-stream block of endCall. -/
theorem stopRemoteStream_fields (s : ServiceState) :
    (WebRTCService.stopRemoteStream s).heap = stopTracks s.heap (remoteIds s)
    ∧ (WebRTCService.stopRemoteStream s).remoteStream = none
    ∧ (WebRTCService.stopRemoteStream s).localStream = s.localStream
    ∧ (WebRTCService.stopRemoteStream s).screenStream = s.screenStream := by
  cases hrs : s.remoteStream <;>
    simp [WebRTCService.stopRemoteStream, remoteIds, hrs, stopTracks_nil]

/-- Fields endCall always resets, for every input state. -/
theorem endCall_resets (s : ServiceState) :
    (WebRTCService.endCall s).peerConnection = none
    ∧ (WebRTCService.endCall s).localStream = none
    ∧ (WebRTCService.endCall s).remoteStream = none
    ∧ (WebRTCService.endCall s).pendingIceCandidates = []
    ∧ (WebRTCService.endCall s).isInitiator = false
    ∧ (WebRTCService.endCall s).remoteUserId = ""
    ∧ (WebRTCService.endCall s).callId = ""
    ∧ (WebRTCService.endCall s).originalVideoTrack = none
    ∧ (WebRTCService.endCall s).isScreenSharing = false := by
  refine ⟨rfl, ?_, ?_, rfl, rfl, rfl, rfl, rfl, rfl⟩
  · exact (stopRemoteStream_fields _).2.2.1.trans (stopLocalStream_fields _).2.1
  · exact (stopRemoteStream_fields _).2.1

/-- On a state whose session fields are already in their reset values,
endCall is the identity. -/
theorem endCall_reset_fixed (s : ServiceState)
    (h1 : s.isScreenSharing = false) (h2 : s.localStream = none)
    (h3 : s.remoteStream = none) (h4 : s.peerConnection = none)
    (h5 : s.pendingIceCandidates = []) (h6 : s.isInitiator = false)
    (h7 : s.remoteUserId = "") (h8 : s.callId = "")
    (h9 : s.originalVideoTrack = none) :
    WebRTCService.endCall s = s := by
  obtain ⟨hp, nx, pc, ls, rs, ss, pend, init, ruid, cid, ct, shr, ovt, app, sent, off⟩ := s
  simp only at h1 h2 h3 h4 h5 h6 h7 h8 h9
  subst h1 h2 h3 h4 h5 h6 h7 h8 h9
  rfl

/-- A second consecutive endCall is the identity on the state the first
produced. -/
theorem endCall_idem (s : ServiceState) :
    WebRTCService.endCall (WebRTCService.endCall s) = WebRTCService.endCall s := by
  have h := endCall_resets s
  exact endCall_reset_fixed (WebRTCService.endCall s)
    h.2.2.2.2.2.2.2.2 h.2.1 h.2.2.1 h.1 h.2.2.2.1 h.2.2.2.2.1
    h.2.2.2.2.2.1 h.2.2.2.2.2.2.1 h.2.2.2.2.2.2.2.1

/-- Claim C3: calling endCall in any state, including a never-opened one,
never throws (the embedding is total because every nullable access in the
source is guarded), leaves every track of the local, remote and screen
streams it held stopped, leaves the peer connection dropped, the streams
cleared, and the pending-candidate queue empty; a second consecutive call is
the identity on that state.  The two hypotheses restrict to states the
service operations produce: a held screen stream is only present while the
sharing flag is set, and while sharing on a video call with a live
connection the original camera track reference is still recorded. -/
theorem C3_endCall_idempotent_release (s : ServiceState)
    (Hscr : s.screenStream.isSome = true → s.isScreenSharing = true)
    (Halt : s.isScreenSharing = true →
      s.originalVideoTrack ≠ none ∨ s.peerConnection = none
        ∨ s.callType = CallType.audio) :
    ((WebRTCService.endCall s).peerConnection = none
     ∧ (WebRTCService.endCall s).localStream = none
     ∧ (WebRTCService.endCall s).remoteStream = none
     ∧ (WebRTCService.endCall s).screenStream = none
     ∧ (WebRTCService.endCall s).pendingIceCandidates = []
     ∧ (WebRTCService.endCall s).isScreenSharing = false
     ∧ (WebRTCService.endCall s).originalVideoTrack = none)
    ∧ (∀ st, s.localStream = some st →
        ∀ i ∈ st.trackIds, trackStopped (WebRTCService.endCall s).heap i)
    ∧ (∀ st, s.remoteStream = some st →
        ∀ i ∈ st.trackIds, trackStopped (WebRTCService.endCall s).heap i)
    ∧ (∀ st, s.screenStream = some st →
        ∀ i ∈ st.trackIds, trackStopped (WebRTCService.endCall s).heap i)
    ∧ WebRTCService.endCall (WebRTCService.endCall s) = WebRTCService.endCall s := by
  set sA := if s.isScreenSharing then WebRTCService.stopScreenShare s else s with hsA
  have h1 : sA.heap = stopTracks s.heap (scrIds s)
      ∧ sA.localStream = s.localStream
      ∧ sA.remoteStream = s.remoteStream
      ∧ sA.screenStream = none := by
    by_cases hsh : s.isScreenSharing = true
    · rw [hsA, if_pos hsh]
      exact stopScreenShare_fields s (Halt hsh)
    · have hscrnone : s.screenStream = none := by
        cases hsc : s.screenStream with
        | none => rfl
        | some scr => exact absurd (Hscr (by rw [hsc]; rfl)) hsh
      rw [hsA, if_neg hsh]
      refine ⟨?_, rfl, rfl, hscrnone⟩
      rw [scrIds_none s hscrnone, stopTracks_nil]
  have h2 := stopLocalStream_fields sA
  have h3 := stopRemoteStream_fields (WebRTCService.stopLocalStream sA)
  have hE : WebRTCService.endCall s
      = { WebRTCService.stopRemoteStream (WebRTCService.stopLocalStream sA) with
          peerConnection := none
          pendingIceCandidates := []
          isInitiator := false
          remoteUserId := ""
          callId := ""
          originalVideoTrack := none
          isScreenSharing := false } := rfl
  have hheap : (WebRTCService.endCall s).heap
      = stopTracks (stopTracks (stopTracks s.heap (scrIds s)) (localIds s)) (remoteIds s) := by
    rw [hE]
    show (WebRTCService.stopRemoteStream (WebRTCService.stopLocalStream sA)).heap = _
    rw [h3.1, h2.1, remoteIds_congr (h2.2.2.1.trans h1.2.2.1), localIds_congr h1.2.1, h1.1]
  refine ⟨⟨rfl, ?_, ?_, ?_, rfl, rfl, rfl⟩, ?_, ?_, ?_, endCall_idem s⟩
  · rw [hE]
    exact h3.2.2.1.trans h2.2.1
  · rw [hE]
    exact h3.2.1
  · rw [hE]
    exact (h3.2.2.2.trans h2.2.2.2).trans h1.2.2.2
  · intro st hst i hi
    have hm : i ∈ localIds s := by unfold localIds; rw [hst]; exact hi
    rw [hheap]
    exact trackStopped_stopTracks_mono _ _ _
      (trackStopped_stopTracks_of_mem _ _ _ hm)
  · intro st hst i hi
    have hm : i ∈ remoteIds s := by unfold remoteIds; rw [hst]; exact hi
    rw [hheap]
    exact trackStopped_stopTracks_of_mem _ _ _ hm
  · intro st hst i hi
    have hm : i ∈ scrIds s := by unfold scrIds; rw [hst]; exact hi
    rw [hheap]
    exact trackStopped_stopTracks_mono _ _ _
      (trackStopped_stopTracks_mono _ _ _
        (trackStopped_stopTracks_of_mem _ _ _ hm))

/-- Witness for claim C3 at the never-opened initial state and at the
screen-sharing example state. -/
theorem C3_endCall_idempotent_release_witness :
    (WebRTCService.endCall exBaseService).peerConnection = none
    ∧ WebRTCService.endCall (WebRTCService.endCall exBaseService)
        = WebRTCService.endCall exBaseService
    ∧ (WebRTCService.endCall exShareService).localStream = none
    ∧ WebRTCService.endCall (WebRTCService.endCall exShareService)
        = WebRTCService.endCall exShareService := by
  have hb := C3_endCall_idempotent_release exBaseService (by decide) (by decide)
  have hs := C3_endCall_idempotent_release exShareService (by decide) (by decide)
  exact ⟨hb.1.1, hb.2.2.2.2, hs.1.2.1, hs.2.2.2.2⟩

end Spec2Proof
